import Mathlib

/-!
Shallow embedding of `scripts/validate_yaml.py` (firewall-gitops YAML
configuration validator).

Modelling conventions:

* Paths are `String`s, built with `++` exactly as the script builds them with
  `os.path.join` and `glob` patterns (POSIX separator `/`, relative to the
  repository root, matching the script's `os.chdir(project_root)`).
* The filesystem the script scans is a `Repo`: the listing of the `clusters/`
  directory, where each entry records its name, whether it is a directory,
  whether the files `cluster.yaml` / `objects.yaml` and the sub-directory
  `objects/` exist in it, and the listing of `objects/`.  An entry of
  `objects/` records its name and, when it is itself a sub-directory, the
  names of the files inside it (which `glob("objects/*.yaml")` never looks at:
  no recursion beyond one level).
* The external libraries `yaml` and `jsonschema` are oracles: an `Oracle`
  gives the (deterministic, content-determined) result of `yaml.safe_load` on
  the file at a given path, and of `jsonschema.validate` on a parsed value
  against a schema document.
* The script's error strings are modelled as the tagged type `VError`; each
  constructor corresponds to one `errors.append(...)` format string of the
  script.
* Python `set` objects are modelled by deduplicated lists; since CPython makes
  no guarantee on the iteration order of a `set` of strings (string hashing is
  seed-randomized per process), every place the script iterates over a set is
  parameterized by an enumeration function `setEnum`, constrained in theorems
  to produce a permutation (`ValidEnum`).
-/

/-- Python `s.endswith(pat)`: `pat` is a suffix of `s`. -/
def pyEndsWith (s pat : String) : Bool :=
  pat.data.isSuffixOf s.data

/-- Python `s.startswith(pat)`: `pat` is a prefix of `s`. -/
def pyStartsWith (s pat : String) : Bool :=
  pat.data.isPrefixOf s.data

/-- Glob visibility: the pattern `*` does not match names that start with a
dot. -/
def visible (n : String) : Bool :=
  !(pyStartsWith n ".")

/-- Model of `os.path.dirname` for the relative, `/`-separated, normalized
paths this script builds: everything before the last `/`, or the empty string
when there is no `/`. -/
def dirname (p : String) : String :=
  String.mk (((p.data.reverse.dropWhile (fun c => c != '/')).drop 1).reverse)

/-- Predicate for a single filesystem-entry name: real directory entries never
contain the path separator. -/
def NoSlash (s : String) : Prop :=
  ('/' : Char) ∉ s.data

instance (s : String) : Decidable (NoSlash s) := by
  unfold NoSlash; infer_instance

/-- One entry of a cluster's `objects/` sub-directory: its name and, when the
entry is itself a directory, the names of the entries inside it (the script
never descends into those). -/
structure ObjEntry where
  name : String
  sub : List String
deriving DecidableEq, Repr

/-- One entry of the `clusters/` directory as the script's `glob` calls and
`os.path` tests observe it. `hasClusterYaml` / `hasObjectsYaml` model
existence of the files `cluster.yaml` / `objects.yaml` in the entry,
`hasObjectsDir` models `os.path.isdir` of the `objects/` sub-directory, and
`objectsEntries` is the listing of that sub-directory. -/
structure ClusterEntry where
  name : String
  isDir : Bool
  hasClusterYaml : Bool
  hasObjectsYaml : Bool
  hasObjectsDir : Bool
  objectsEntries : List ObjEntry
deriving DecidableEq, Repr

/-- The listing of the `clusters/` directory, in directory order (the order
`glob` reports, fixed for a fixed repository state). -/
structure Repo where
  entries : List ClusterEntry
deriving DecidableEq, Repr

/-- Untyped parsed YAML/JSON document, as `yaml.safe_load` / `json.load`
return it: the script passes it opaquely to `jsonschema`. -/
inductive YamlValue where
  | null
  | bool (b : Bool)
  | num (n : Int)
  | str (s : String)
  | arr (items : List YamlValue)
  | obj (fields : List (String × YamlValue))

/-- Result of `yaml.safe_load` on one file: either a `yaml.YAMLError` with its
message, or a parsed value (`.ok .null` for an empty file). -/
inductive ParseResult where
  | err (msg : String)
  | ok (value : YamlValue)

/-- Library behaviour, deterministic in the (fixed) file contents:
`parse path` is the result of `yaml.safe_load` on the file at `path`, and
`schemaValidate data schema` is `none` when `jsonschema.validate(instance=
data, schema=schema)` succeeds, `some msg` when it raises a
`ValidationError` with message `msg`. -/
structure Oracle where
  parse : String → ParseResult
  schemaValidate : YamlValue → YamlValue → Option String

/-- Tagged model of the strings the script appends to `errors`:
`syntaxError f m` is "YAML syntax error in f: m", `schemaError f m` is
"Schema validation error in f: m" (built by `validate_schema`),
`missingObjects d` is "Missing objects configuration (objects.yaml or
objects/ folder) for cluster: d", and `orphanedObjects d` is "Orphaned
objects configuration without cluster.yaml: d". -/
inductive VError where
  | syntaxError (filePath msg : String)
  | schemaError (filePath msg : String)
  | missingObjects (dir : String)
  | orphanedObjects (dir : String)
deriving DecidableEq, Repr

/-- Outcome of reading a schema file in `load_schema`: the file may be absent
(`FileNotFoundError`) or have contents `text`. -/
inductive SchemaFileRead where
  | notFound
  | content (text : String)

/-- Model of `load_schema`: `None` on `FileNotFoundError`, `None` when
`json.load` fails (`jsonParse` returns `none`), otherwise the parsed schema
document. -/
def load_schema (jsonParse : String → Option YamlValue) : SchemaFileRead → Option YamlValue
  | .notFound => none
  | .content text => jsonParse text

/-- Model of the body of the two per-file validation loops in `main`: run
`validate_yaml_syntax` (the `.err` branch, which appends a syntax error and
`continue`s), else reload the same unchanged file and run `validate_schema`
against the given schema.  The script parses the file twice; with fixed file
contents both `yaml.safe_load` calls return the same value, so a single
oracle call models both. -/
def validateOneFile (oracle : Oracle) (schema : YamlValue) (filePath : String) : List VError :=
  match oracle.parse filePath with
  | .err msg => [.syntaxError filePath msg]
  | .ok data =>
    match oracle.schemaValidate data schema with
    | some msg => [.schemaError filePath msg]
    | none => []

/-- Model of `glob.glob("clusters/*/cluster.yaml")` in `find_yaml_files`:
for every visible entry of `clusters/` (in directory order) for which the
file `cluster.yaml` exists, the path `clusters/<name>/cluster.yaml`. -/
def cluster_configs (repo : Repo) : List String :=
  (repo.entries.filter (fun e => visible e.name && e.hasClusterYaml)).map
    (fun e => "clusters/" ++ e.name ++ "/cluster.yaml")

/-- Body of the object-discovery loop of `find_yaml_files` for one entry of
`clusters/` (one iteration of `for cluster_dir in cluster_dirs`): skip
non-directories, take `clusters/<name>/objects.yaml` when that file exists,
then every `clusters/<name>/objects/<file>` matched by
`glob("objects/*.yaml")` when the `objects/` sub-directory exists. -/
def entryObjects (e : ClusterEntry) : List String :=
  if visible e.name && e.isDir then
    (if e.hasObjectsYaml then ["clusters/" ++ e.name ++ "/objects.yaml"] else []) ++
    (if e.hasObjectsDir then
      (e.objectsEntries.filter (fun g => visible g.name && pyEndsWith g.name ".yaml")).map
        (fun g => "clusters/" ++ e.name ++ "/objects/" ++ g.name)
    else [])
  else []

/-- Model of the object-discovery loop of `find_yaml_files`: the
`firewall_objects` list accumulated over the visible entries of `clusters/`
in directory order. -/
def firewall_objects (repo : Repo) : List String :=
  repo.entries.flatMap entryObjects

/-- Model of `find_yaml_files`. -/
def find_yaml_files (repo : Repo) : List String × List String :=
  (cluster_configs repo, firewall_objects repo)

/-- The directory the reference check attributes an object file to: the body
of the `for objects_path in firewall_objects` loop in
`validate_cluster_references` adds `dirname(objects_path)` when the path ends
with the string "objects.yaml", else `dirname(dirname(objects_path))`. -/
def objectOwnerDir (objects_path : String) : String :=
  if pyEndsWith objects_path "objects.yaml" then dirname objects_path
  else dirname (dirname objects_path)

/-- The `cluster_dirs` set of `validate_cluster_references`: the set (a
Python `set`, modelled as a deduplicated list) of `os.path.dirname` of every
cluster config path. -/
def cluster_dirs (configs : List String) : List String :=
  (configs.map dirname).dedup

/-- The `objects_dirs` set of `validate_cluster_references`: the set of
owner directories the loop over `firewall_objects` accumulates. -/
def objects_dirs (objects : List String) : List String :=
  (objects.map objectOwnerDir).dedup

/-- The set difference `cluster_dirs - objects_dirs`. -/
def missing_objects (configs objects : List String) : List String :=
  (cluster_dirs configs).filter (fun d => !((objects_dirs objects).contains d))

/-- The set difference `objects_dirs - cluster_dirs`. -/
def orphaned_objects (configs objects : List String) : List String :=
  (objects_dirs objects).filter (fun d => !((cluster_dirs configs).contains d))

/-- Model of `validate_cluster_references`: build the set of directories of
cluster configs and the set of owner directories of object files, and report
the two set differences, all missing-objects errors first. `setEnum` models
the unspecified iteration order of a CPython `set` of strings: the loops
`for missing in missing_objects` / `for orphaned in orphaned_objects` visit
each element of the respective set once, in some order. -/
def validate_cluster_references (configs objects : List String)
    (setEnum : List String → List String) : List VError :=
  (setEnum (missing_objects configs objects)).map VError.missingObjects ++
    (setEnum (orphaned_objects configs objects)).map VError.orphanedObjects

/-- Result of one run of `main`: the fatal early return 1 when a schema
failed to load, the early return 0 with the "No YAML configuration files
found." message, or the final report with the collected error list (printed,
then exit 1 when non-empty, else the success message and exit 0). -/
inductive RunResult where
  | fatalSchemaLoad
  | nothingFound
  | report (errors : List VError)
deriving DecidableEq, Repr

/-- Exit status `sys.exit(main())` delivers: the early returns give 1 and 0,
the final report gives 1 exactly when the error list is non-empty. -/
def RunResult.exitCode : RunResult → Nat
  | .fatalSchemaLoad => 1
  | .nothingFound => 0
  | .report errs => if errs.isEmpty then 0 else 1

/-- The collected `errors` list of a run (empty for the two early returns,
which never touch the list). -/
def RunResult.errors : RunResult → List VError
  | .report errs => errs
  | _ => []

/-- Model of the script's `main`: abort when either loaded schema is `None`; discover
files; short-circuit on an empty discovery; validate every cluster config
against the cluster schema, then every object file against the rules schema,
then append the reference-check errors. -/
def main' (oracle : Oracle) (clusterSchemaDoc rulesSchemaDoc : Option YamlValue)
    (repo : Repo) (setEnum : List String → List String) : RunResult :=
  match clusterSchemaDoc, rulesSchemaDoc with
  | some clusterSchema, some rulesSchema =>
    let configs := cluster_configs repo
    let objects := firewall_objects repo
    if configs.isEmpty && objects.isEmpty then
      .nothingFound
    else
      .report ((configs.flatMap (validateOneFile oracle clusterSchema)) ++
        (objects.flatMap (validateOneFile oracle rulesSchema)) ++
        validate_cluster_references configs objects setEnum)
  | _, _ => .fatalSchemaLoad

/-- Admissible model of one process's `set`-iteration order: each set is
enumerated exactly once in some order. -/
def ValidEnum (f : List String → List String) : Prop :=
  ∀ l : List String, (f l).Perm l

/-- Well-formedness of one `clusters/` entry as a real filesystem guarantees
it: non-empty separator-free name, `cluster.yaml` can only exist inside a
directory, and the `objects/` listing has distinct, non-empty,
separator-free names. -/
def EntryWf (e : ClusterEntry) : Prop :=
  e.name ≠ "" ∧ NoSlash e.name ∧ (e.hasClusterYaml = true → e.isDir = true) ∧
  (e.objectsEntries.map ObjEntry.name).Nodup ∧
  ∀ g ∈ e.objectsEntries, g.name ≠ "" ∧ NoSlash g.name

/-- Well-formedness of a repository state: the `clusters/` listing has
distinct names and every entry is well-formed. -/
def RepoWf (r : Repo) : Prop :=
  (r.entries.map ClusterEntry.name).Nodup ∧ ∀ e ∈ r.entries, EntryWf e

instance (e : ClusterEntry) : Decidable (EntryWf e) := by
  unfold EntryWf; infer_instance

instance (r : Repo) : Decidable (RepoWf r) := by
  unfold RepoWf; infer_instance

/-! Concrete repository states and library behaviours used to instantiate
the theorems below on closed inputs. -/

/-- Library behaviour in which every file parses to the YAML null value and
every instance satisfies every schema. -/
def oracleOk : Oracle :=
  { parse := fun _ => .ok .null
    schemaValidate := fun _ _ => none }

/-- Library behaviour in which the file `clusters/alpha/cluster.yaml` has a
YAML syntax error and every other file is fine. -/
def oracleBadAlpha : Oracle :=
  { parse := fun p =>
      if p = "clusters/alpha/cluster.yaml" then .err "mapping values are not allowed here"
      else .ok .null
    schemaValidate := fun _ _ => none }

/-- Library behaviour in which every file parses to null and the rules schema
rejects the null instance. -/
def oracleNullRejected : Oracle :=
  { parse := fun _ => .ok .null
    schemaValidate := fun data _ =>
      match data with
      | .null => some "None is not of type \x27object\x27"
      | _ => none }

/-- Repository with one conventional cluster `east` holding `cluster.yaml`
and a nested object file named exactly `objects.yaml` inside `objects/`. -/
def repoEastNested : Repo :=
  { entries := [{ name := "east", isDir := true, hasClusterYaml := true,
                  hasObjectsYaml := false, hasObjectsDir := true,
                  objectsEntries := [{ name := "objects.yaml", sub := [] }] }] }

/-- Repository with one directory `zeta` under `clusters/` that has no
`cluster.yaml` and owns exactly one object source: the `objects/` folder
holding the single file `objects.yaml`. -/
def repoZeta : Repo :=
  { entries := [{ name := "zeta", isDir := true, hasClusterYaml := false,
                  hasObjectsYaml := false, hasObjectsDir := true,
                  objectsEntries := [{ name := "objects.yaml", sub := [] }] }] }

/-- Repository with two cluster directories `a` and `b`, both holding only a
`cluster.yaml` (no object sources), listed in that order. -/
def repoAB : Repo :=
  { entries := [{ name := "a", isDir := true, hasClusterYaml := true,
                  hasObjectsYaml := false, hasObjectsDir := false, objectsEntries := [] },
                { name := "b", isDir := true, hasClusterYaml := true,
                  hasObjectsYaml := false, hasObjectsDir := false, objectsEntries := [] }] }

/-- Repository with a syntactically broken `clusters/alpha/cluster.yaml` and
a fully conventional cluster `beta`. -/
def repoAlphaBeta : Repo :=
  { entries := [{ name := "alpha", isDir := true, hasClusterYaml := true,
                  hasObjectsYaml := true, hasObjectsDir := false, objectsEntries := [] },
                { name := "beta", isDir := true, hasClusterYaml := true,
                  hasObjectsYaml := true, hasObjectsDir := false, objectsEntries := [] }] }

/-- Repository with one cluster `east` in which both supported object
layouts coexist (`objects.yaml` and `objects/` with `web.yaml`), and the
`objects/` folder also holds a sub-directory `deep.yaml` with a file inside
that discovery must not descend into. -/
def repoCoexist : Repo :=
  { entries := [{ name := "east", isDir := true, hasClusterYaml := true,
                  hasObjectsYaml := true, hasObjectsDir := true,
                  objectsEntries := [{ name := "web.yaml", sub := [] },
                                     { name := "deep", sub := ["inner.yaml"] }] }] }

/-- The identity enumeration: one admissible iteration order of the modelled
sets. -/
def enumId : List String → List String := fun l => l

/-- The reversed enumeration: another admissible iteration order of the
modelled sets. -/
def enumRev : List String → List String := fun l => l.reverse


/-! String and path facts used to reason about the discovered paths. -/

/-- Core cancellation fact: a separator-free segment followed by a
`/`-headed tail determines both parts. -/
theorem noslash_append_cancel :
    ∀ {a b u v : List Char}, ('/' : Char) ∉ a → ('/' : Char) ∉ b →
      u.head? = some '/' → v.head? = some '/' → a ++ u = b ++ v → a = b ∧ u = v := by
  intro a
  induction a with
  | nil =>
    intro b u v _ hb hu hv h
    cases b with
    | nil => exact ⟨rfl, h⟩
    | cons c bs =>
      exfalso
      simp only [List.nil_append, List.cons_append] at h
      rw [h] at hu
      simp only [List.head?_cons, Option.some.injEq] at hu
      exact hb (hu ▸ List.mem_cons_self c bs)
  | cons x xs ih =>
    intro b u v ha hb hu hv h
    cases b with
    | nil =>
      exfalso
      simp only [List.nil_append, List.cons_append] at h
      rw [← h] at hv
      simp only [List.head?_cons, Option.some.injEq] at hv
      exact ha (hv ▸ List.mem_cons_self x xs)
    | cons y bs =>
      simp only [List.cons_append, List.cons.injEq] at h
      obtain ⟨hxy, h'⟩ := h
      have ha' : ('/' : Char) ∉ xs := fun hm => ha (List.mem_cons_of_mem x hm)
      have hb' : ('/' : Char) ∉ bs := fun hm => hb (List.mem_cons_of_mem y hm)
      obtain ⟨h₁, h₂⟩ := ih ha' hb' hu hv h'
      exact ⟨by rw [hxy, h₁], h₂⟩

/-- Any two discovered paths agree exactly when their cluster name and their
tail agree, provided the names are separator-free and the tails start with
the separator. -/
theorem clusters_path_eq_iff {n₁ n₂ t₁ t₂ : String}
    (h₁ : NoSlash n₁) (h₂ : NoSlash n₂)
    (ht₁ : t₁.data.head? = some '/') (ht₂ : t₂.data.head? = some '/') :
    "clusters/" ++ n₁ ++ t₁ = "clusters/" ++ n₂ ++ t₂ ↔ n₁ = n₂ ∧ t₁ = t₂ := by
  constructor
  · intro h
    have hd := congrArg String.data h
    rw [String.data_append, String.data_append, String.data_append, String.data_append,
      List.append_assoc, List.append_assoc] at hd
    have hd' := List.append_cancel_left hd
    obtain ⟨hn, ht⟩ := noslash_append_cancel h₁ h₂ ht₁ ht₂ hd'
    exact ⟨congrArg String.mk hn, congrArg String.mk ht⟩
  · rintro ⟨rfl, rfl⟩
    rfl

theorem objTail_data (f : String) :
    ("/objects/" ++ f).data = '/' :: ("objects/".data ++ f.data) := by
  have h : ("/objects/" : String).data = '/' :: "objects/".data := by decide
  rw [String.data_append, h]
  rfl

theorem head_configTail : ("/cluster.yaml" : String).data.head? = some '/' := by decide

theorem head_objectsYamlTail : ("/objects.yaml" : String).data.head? = some '/' := by decide

theorem head_objTail (f : String) : (("/objects/" ++ f : String)).data.head? = some '/' := by
  rw [objTail_data]
  rfl

theorem tail_config_ne_objectsYaml : ("/cluster.yaml" : String) ≠ "/objects.yaml" := by decide

theorem tail_config_ne_objTail (f : String) : ("/cluster.yaml" : String) ≠ "/objects/" ++ f := by
  intro h
  have hd := congrArg String.data h
  rw [objTail_data] at hd
  have hL : ("/cluster.yaml" : String).data = '/' :: 'c' :: "luster.yaml".data := by decide
  rw [hL] at hd
  have hO : ("objects/" : String).data = 'o' :: "bjects/".data := by decide
  injection hd with _ hd'
  rw [hO, List.cons_append] at hd'
  injection hd' with hc _
  exact absurd hc (by decide)

theorem tail_objectsYaml_ne_objTail (f : String) :
    ("/objects.yaml" : String) ≠ "/objects/" ++ f := by
  intro h
  have hd := congrArg String.data h
  have hL : ("/objects.yaml" : String).data = "/objects".data ++ '.' :: "yaml".data := by decide
  have hR : ("/objects/" : String).data = "/objects".data ++ ['/'] := by decide
  rw [hL, String.data_append, hR, List.append_assoc] at hd
  have h' := List.append_cancel_left hd
  rw [List.singleton_append] at h'
  injection h' with hc _
  exact absurd hc (by decide)

theorem objTail_inj {f₁ f₂ : String} (h : ("/objects/" ++ f₁ : String) = "/objects/" ++ f₂) :
    f₁ = f₂ := by
  have hd := congrArg String.data h
  rw [String.data_append, String.data_append] at hd
  exact congrArg String.mk (List.append_cancel_left hd)

/-! Characterizations of the discovered path lists. -/

theorem mem_cluster_configs {repo : Repo} {x : String} :
    x ∈ cluster_configs repo ↔ ∃ e ∈ repo.entries, visible e.name = true ∧
      e.hasClusterYaml = true ∧ x = "clusters/" ++ e.name ++ "/cluster.yaml" := by
  unfold cluster_configs
  simp only [List.mem_map, List.mem_filter, Bool.and_eq_true]
  constructor
  · rintro ⟨e, ⟨he, hv, hc⟩, rfl⟩
    exact ⟨e, he, hv, hc, rfl⟩
  · rintro ⟨e, he, hv, hc, rfl⟩
    exact ⟨e, ⟨he, hv, hc⟩, rfl⟩

/-- Reassociation of the nested-object path into cluster-prefix and tail. -/
theorem nested_path_assoc (n f : String) :
    "clusters/" ++ n ++ "/objects/" ++ f = "clusters/" ++ n ++ ("/objects/" ++ f) :=
  String.append_assoc _ _ _

theorem mem_entryObjects {e : ClusterEntry} {x : String} :
    x ∈ entryObjects e ↔ visible e.name = true ∧ e.isDir = true ∧
      ((e.hasObjectsYaml = true ∧ x = "clusters/" ++ e.name ++ "/objects.yaml") ∨
       (e.hasObjectsDir = true ∧ ∃ g ∈ e.objectsEntries, visible g.name = true ∧
         pyEndsWith g.name ".yaml" = true ∧ x = "clusters/" ++ e.name ++ "/objects/" ++ g.name)) := by
  unfold entryObjects
  by_cases h1 : (visible e.name && e.isDir) = true
  · rw [if_pos h1]
    rw [Bool.and_eq_true] at h1
    obtain ⟨hv, hd⟩ := h1
    rw [List.mem_append]
    simp only [hv, hd, true_and]
    constructor
    · rintro (hmem | hmem)
      · by_cases h2 : e.hasObjectsYaml = true
        · rw [if_pos h2, List.mem_singleton] at hmem
          exact Or.inl ⟨h2, hmem⟩
        · rw [if_neg h2] at hmem
          exact absurd hmem (List.not_mem_nil x)
      · by_cases h3 : e.hasObjectsDir = true
        · rw [if_pos h3, List.mem_map] at hmem
          obtain ⟨g, hg, hgx⟩ := hmem
          obtain ⟨hgm, hgp⟩ := List.mem_filter.mp hg
          rw [Bool.and_eq_true] at hgp
          obtain ⟨hgv, hge⟩ := hgp
          exact Or.inr ⟨h3, g, hgm, hgv, hge, hgx.symm⟩
        · rw [if_neg h3] at hmem
          exact absurd hmem (List.not_mem_nil x)
    · rintro (⟨h2, rfl⟩ | ⟨h3, g, hg, hgv, hge, rfl⟩)
      · left
        rw [if_pos h2, List.mem_singleton]
      · right
        rw [if_pos h3, List.mem_map]
        exact ⟨g, List.mem_filter.mpr ⟨hg, by rw [hgv, hge]; rfl⟩, rfl⟩
  · rw [if_neg h1]
    simp only [List.not_mem_nil, false_iff]
    rintro ⟨hv, hd, -⟩
    exact h1 (by rw [hv, hd]; rfl)

theorem mem_firewall_objects {repo : Repo} {x : String} :
    x ∈ firewall_objects repo ↔ ∃ e ∈ repo.entries, x ∈ entryObjects e := by
  unfold firewall_objects
  exact List.mem_flatMap

/-- Every object path produced for entry `e` is the cluster path of `e`
followed by a slash-headed tail that is not the cluster-config tail. -/
theorem entryObjects_form {e : ClusterEntry} {x : String} (hx : x ∈ entryObjects e) :
    ∃ t : String, t.data.head? = some '/' ∧ t ≠ "/cluster.yaml" ∧
      x = "clusters/" ++ e.name ++ t := by
  rcases (mem_entryObjects.1 hx).2.2 with ⟨_, rfl⟩ | ⟨_, g, _, _, _, rfl⟩
  · exact ⟨"/objects.yaml", head_objectsYamlTail, Ne.symm tail_config_ne_objectsYaml, rfl⟩
  · exact ⟨"/objects/" ++ g.name, head_objTail g.name,
      Ne.symm (tail_config_ne_objTail g.name), nested_path_assoc e.name g.name⟩

theorem cluster_configs_nodup {repo : Repo} (h : RepoWf repo) : (cluster_configs repo).Nodup := by
  unfold cluster_configs
  have hsub := (List.filter_sublist (l := repo.entries)
    (p := fun e => visible e.name && e.hasClusterYaml))
  refine List.Nodup.map_on ?_ (hsub.nodup (List.Nodup.of_map _ h.1))
  intro e₁ h₁ e₂ h₂ heq
  have m₁ := List.mem_of_mem_filter h₁
  have m₂ := List.mem_of_mem_filter h₂
  have hn₁ : NoSlash e₁.name := (h.2 e₁ m₁).2.1
  have hn₂ : NoSlash e₂.name := (h.2 e₂ m₂).2.1
  have := (clusters_path_eq_iff hn₁ hn₂ head_configTail head_configTail).1 heq
  exact List.inj_on_of_nodup_map h.1 m₁ m₂ this.1

theorem entryObjects_nodup {e : ClusterEntry} (hw : EntryWf e) : (entryObjects e).Nodup := by
  have hname : NoSlash e.name := hw.2.1
  have hnames := hw.2.2.2.1
  have hobjs : e.objectsEntries.Nodup := List.Nodup.of_map _ hnames
  have hnested : ((e.objectsEntries.filter
      (fun g => visible g.name && pyEndsWith g.name ".yaml")).map
        (fun g => "clusters/" ++ e.name ++ "/objects/" ++ g.name)).Nodup := by
    refine List.Nodup.map_on ?_ ((List.filter_sublist _).nodup hobjs)
    intro g₁ hg₁ g₂ hg₂ heq
    rw [nested_path_assoc, nested_path_assoc] at heq
    have := ((clusters_path_eq_iff hname hname (head_objTail g₁.name)
      (head_objTail g₂.name)).1 heq).2
    have hne := objTail_inj this
    exact List.inj_on_of_nodup_map hnames (List.mem_of_mem_filter hg₁)
      (List.mem_of_mem_filter hg₂) hne
  unfold entryObjects
  by_cases h1 : (visible e.name && e.isDir) = true
  · rw [if_pos h1]
    by_cases h2 : e.hasObjectsYaml = true
    · rw [if_pos h2]
      by_cases h3 : e.hasObjectsDir = true
      · rw [if_pos h3, List.singleton_append, List.nodup_cons]
        refine ⟨fun hmem => ?_, hnested⟩
        rw [List.mem_map] at hmem
        obtain ⟨g, -, hg⟩ := hmem
        rw [nested_path_assoc] at hg
        have := ((clusters_path_eq_iff hname hname (head_objTail g.name)
          head_objectsYamlTail).1 hg).2
        exact tail_objectsYaml_ne_objTail g.name this.symm
      · rw [if_neg h3, List.append_nil]
        exact List.nodup_singleton _
    · rw [if_neg h2, List.nil_append]
      by_cases h3 : e.hasObjectsDir = true
      · rw [if_pos h3]
        exact hnested
      · rw [if_neg h3]
        exact List.nodup_nil
  · rw [if_neg h1]
    exact List.nodup_nil

theorem firewall_objects_nodup {repo : Repo} (h : RepoWf repo) :
    (firewall_objects repo).Nodup := by
  unfold firewall_objects
  rw [List.nodup_flatMap]
  refine ⟨fun e he => entryObjects_nodup (h.2 e he), ?_⟩
  have hp : repo.entries.Pairwise (fun a b => a.name ≠ b.name) := List.pairwise_map.mp h.1
  refine hp.imp_of_mem ?_
  intro a b ha hb hne x hxa hxb
  obtain ⟨t₁, ht₁, _, rfl⟩ := entryObjects_form hxa
  obtain ⟨t₂, ht₂, _, hx⟩ := entryObjects_form hxb
  have hn₁ : NoSlash a.name := (h.2 a ha).2.1
  have hn₂ : NoSlash b.name := (h.2 b hb).2.1
  exact hne ((clusters_path_eq_iff hn₁ hn₂ ht₁ ht₂).1 hx).1

theorem discovered_nodup {repo : Repo} (h : RepoWf repo) :
    (cluster_configs repo ++ firewall_objects repo).Nodup := by
  rw [List.nodup_append]
  refine ⟨cluster_configs_nodup h, firewall_objects_nodup h, ?_⟩
  intro x hxc hxo
  obtain ⟨e₁, he₁, _, _, rfl⟩ := mem_cluster_configs.1 hxc
  obtain ⟨e₂, he₂, hmem⟩ := mem_firewall_objects.1 hxo
  obtain ⟨t, ht, htne, hx⟩ := entryObjects_form hmem
  have hn₁ : NoSlash e₁.name := (h.2 e₁ he₁).2.1
  have hn₂ : NoSlash e₂.name := (h.2 e₂ he₂).2.1
  exact htne ((clusters_path_eq_iff hn₂ hn₁ ht head_configTail).1 hx.symm).2

/-! Facts about per-file validation errors, the reference-check lists, and
the shape of a run. -/

theorem validateOneFile_kinds {oracle : Oracle} {schema : YamlValue} {p : String} {er : VError}
    (h : er ∈ validateOneFile oracle schema p) :
    (∃ m, er = .syntaxError p m) ∨ (∃ m, er = .schemaError p m) := by
  cases hpr : oracle.parse p with
  | err m =>
    simp only [validateOneFile, hpr, List.mem_singleton] at h
    exact Or.inl ⟨m, h⟩
  | ok v =>
    cases hsv : oracle.schemaValidate v schema with
    | none => simp [validateOneFile, hpr, hsv] at h
    | some m =>
      simp only [validateOneFile, hpr, hsv, List.mem_singleton] at h
      exact Or.inr ⟨m, h⟩

theorem perFile_no_missing {oracle : Oracle} {schema : YamlValue} {l : List String} {d : String} :
    VError.missingObjects d ∉ l.flatMap (validateOneFile oracle schema) := by
  intro h
  rw [List.mem_flatMap] at h
  obtain ⟨p, -, hm⟩ := h
  rcases validateOneFile_kinds hm with ⟨m, hm'⟩ | ⟨m, hm'⟩ <;> exact VError.noConfusion hm'

theorem perFile_no_orphaned {oracle : Oracle} {schema : YamlValue} {l : List String} {d : String} :
    VError.orphanedObjects d ∉ l.flatMap (validateOneFile oracle schema) := by
  intro h
  rw [List.mem_flatMap] at h
  obtain ⟨p, -, hm⟩ := h
  rcases validateOneFile_kinds hm with ⟨m, hm'⟩ | ⟨m, hm'⟩ <;> exact VError.noConfusion hm'

theorem count_missing_map_missing (l : List String) (d : String) :
    (l.map VError.missingObjects).count (VError.missingObjects d) = l.count d :=
  List.count_map_of_injective l VError.missingObjects
    (fun a b h => by injection h) d

theorem count_orphaned_map_orphaned (l : List String) (d : String) :
    (l.map VError.orphanedObjects).count (VError.orphanedObjects d) = l.count d :=
  List.count_map_of_injective l VError.orphanedObjects
    (fun a b h => by injection h) d

theorem count_missing_map_orphaned (l : List String) (d : String) :
    (l.map VError.orphanedObjects).count (VError.missingObjects d) = 0 := by
  rw [List.count_eq_zero]
  intro h
  rw [List.mem_map] at h
  obtain ⟨a, -, ha⟩ := h
  exact VError.noConfusion ha

theorem count_orphaned_map_missing (l : List String) (d : String) :
    (l.map VError.missingObjects).count (VError.orphanedObjects d) = 0 := by
  rw [List.count_eq_zero]
  intro h
  rw [List.mem_map] at h
  obtain ⟨a, -, ha⟩ := h
  exact VError.noConfusion ha

theorem list_contains_iff {l : List String} {a : String} : l.contains a = true ↔ a ∈ l := by
  simp

theorem mem_missing_objects {configs objects : List String} {d : String} :
    d ∈ missing_objects configs objects ↔
      d ∈ configs.map dirname ∧ d ∉ objects.map objectOwnerDir := by
  unfold missing_objects cluster_dirs objects_dirs
  constructor
  · intro h
    obtain ⟨h1, h2⟩ := List.mem_filter.mp h
    rw [Bool.not_eq_true'] at h2
    refine ⟨List.mem_dedup.mp h1, fun hm => ?_⟩
    have hc := list_contains_iff.mpr (List.mem_dedup.mpr hm)
    rw [h2] at hc
    exact Bool.false_ne_true hc
  · rintro ⟨h1, h2⟩
    refine List.mem_filter.mpr ⟨List.mem_dedup.mpr h1, ?_⟩
    rw [Bool.not_eq_true']
    cases hcase : (objects.map objectOwnerDir).dedup.contains d
    · rfl
    · exact (h2 (List.mem_dedup.mp (list_contains_iff.mp hcase))).elim

theorem mem_orphaned_objects {configs objects : List String} {d : String} :
    d ∈ orphaned_objects configs objects ↔
      d ∈ objects.map objectOwnerDir ∧ d ∉ configs.map dirname := by
  unfold orphaned_objects cluster_dirs objects_dirs
  constructor
  · intro h
    obtain ⟨h1, h2⟩ := List.mem_filter.mp h
    rw [Bool.not_eq_true'] at h2
    refine ⟨List.mem_dedup.mp h1, fun hm => ?_⟩
    have hc := list_contains_iff.mpr (List.mem_dedup.mpr hm)
    rw [h2] at hc
    exact Bool.false_ne_true hc
  · rintro ⟨h1, h2⟩
    refine List.mem_filter.mpr ⟨List.mem_dedup.mpr h1, ?_⟩
    rw [Bool.not_eq_true']
    cases hcase : (configs.map dirname).dedup.contains d
    · rfl
    · exact (h2 (List.mem_dedup.mp (list_contains_iff.mp hcase))).elim

theorem missing_objects_nodup (configs objects : List String) :
    (missing_objects configs objects).Nodup :=
  (List.nodup_dedup _).filter _

theorem orphaned_objects_nodup (configs objects : List String) :
    (orphaned_objects configs objects).Nodup :=
  (List.nodup_dedup _).filter _

theorem main'_some (oracle : Oracle) (cs rs : YamlValue) (repo : Repo)
    (setEnum : List String → List String) :
    main' oracle (some cs) (some rs) repo setEnum =
      if (cluster_configs repo).isEmpty && (firewall_objects repo).isEmpty then .nothingFound
      else .report (((cluster_configs repo).flatMap (validateOneFile oracle cs)) ++
        ((firewall_objects repo).flatMap (validateOneFile oracle rs)) ++
        validate_cluster_references (cluster_configs repo) (firewall_objects repo) setEnum) :=
  rfl

theorem report_exit_iff (errs : List VError) :
    ((RunResult.report errs).exitCode = 0 ↔ errs = []) ∧
    ((RunResult.report errs).exitCode = 1 ↔ errs ≠ []) := by
  cases errs <;> simp [RunResult.exitCode]

/-- C7: the exit status delivered by `sys.exit(main())` is 0 exactly when
both schemas loaded and the collected error list is empty (all discovered
files valid and the reference check clean, or nothing discovered), and 1
exactly when a schema failed to load or any error was collected. -/
theorem C7_exit_status (oracle : Oracle) (csd rsd : Option YamlValue) (repo : Repo)
    (setEnum : List String → List String) :
    ((main' oracle csd rsd repo setEnum).exitCode = 0 ↔
      csd.isSome = true ∧ rsd.isSome = true ∧
        (main' oracle csd rsd repo setEnum).errors = []) ∧
    ((main' oracle csd rsd repo setEnum).exitCode = 1 ↔
      (csd.isNone = true ∨ rsd.isNone = true ∨
        (main' oracle csd rsd repo setEnum).errors ≠ [])) := by
  cases csd with
  | none =>
    have h : main' oracle none rsd repo setEnum = .fatalSchemaLoad := by
      cases rsd <;> rfl
    rw [h]
    simp [RunResult.exitCode, RunResult.errors]
  | some cs =>
    cases rsd with
    | none =>
      have h : main' oracle (some cs) none repo setEnum = .fatalSchemaLoad := rfl
      rw [h]
      simp [RunResult.exitCode, RunResult.errors]
    | some rs =>
      rw [main'_some]
      by_cases hemp : ((cluster_configs repo).isEmpty && (firewall_objects repo).isEmpty) = true
      · rw [if_pos hemp]
        simp [RunResult.exitCode, RunResult.errors]
      · rw [if_neg hemp]
        generalize ((cluster_configs repo).flatMap (validateOneFile oracle cs)) ++
          ((firewall_objects repo).flatMap (validateOneFile oracle rs)) ++
          validate_cluster_references (cluster_configs repo) (firewall_objects repo) setEnum = errs
        obtain ⟨h0, h1⟩ := report_exit_iff errs
        simp only [RunResult.errors, Option.isSome_some, Option.isNone_some, true_and,
          Bool.false_eq_true, false_or]
        exact ⟨h0, h1⟩

/-- C3: if either required schema document fails to load — the file is
absent or its contents are not valid JSON — the run is the fatal early
return: exit status 1, an untouched (empty) error list, and a result that
does not depend on the repository state, the file contents, or the set
iteration order, i.e. no discovery, per-file validation, or reference
checking happens. -/
theorem C3_fatal_schema_load (jsonParse : String → Option YamlValue) (text : String)
    (hbad : jsonParse text = none) (oracle oracle' : Oracle) (csd rsd : Option YamlValue)
    (hnone : csd = none ∨ rsd = none) (repo repo' : Repo)
    (setEnum setEnum' : List String → List String) :
    load_schema jsonParse .notFound = none ∧
    load_schema jsonParse (.content text) = none ∧
    main' oracle csd rsd repo setEnum = .fatalSchemaLoad ∧
    (main' oracle csd rsd repo setEnum).exitCode = 1 ∧
    (main' oracle csd rsd repo setEnum).errors = [] ∧
    main' oracle csd rsd repo setEnum = main' oracle' csd rsd repo' setEnum' := by
  have hfatal : ∀ (o : Oracle) (r : Repo) (se : List String → List String),
      main' o csd rsd r se = .fatalSchemaLoad := by
    intro o r se
    rcases hnone with rfl | rfl
    · cases rsd <;> rfl
    · cases csd <;> rfl
  refine ⟨rfl, hbad, hfatal oracle repo setEnum, ?_, ?_, ?_⟩
  · rw [hfatal]
    rfl
  · rw [hfatal]
    rfl
  · rw [hfatal, hfatal]

/-- Closed instance of C3: with the cluster schema absent (loaded as `None`)
and the rules schema loaded, the run is the fatal exit-1 early return no
matter what the repository holds. -/
theorem C3_fatal_schema_load_witness :
    load_schema (fun _ => none) .notFound = none ∧
    load_schema (fun _ => none) (.content "not json") = none ∧
    main' oracleOk none (some .null) repoAB enumId = .fatalSchemaLoad ∧
    (main' oracleOk none (some .null) repoAB enumId).exitCode = 1 ∧
    (main' oracleOk none (some .null) repoAB enumId).errors = [] ∧
    main' oracleOk none (some .null) repoAB enumId =
      main' oracleBadAlpha none (some .null) repoEastNested enumRev :=
  C3_fatal_schema_load (fun _ => none) "not json" rfl oracleOk oracleBadAlpha none
    (some .null) (Or.inl rfl) repoAB repoEastNested enumId enumRev

/-- C5: when discovery finds no cluster configs and no object files at all,
the run short-circuits with the informational early return ("No YAML
configuration files found."): zero collected errors, exit status 0, and no
reference check (the result does not depend on the set iteration order). -/
theorem C5_empty_discovery (oracle : Oracle) (cs rs : YamlValue) (repo : Repo)
    (setEnum setEnum' : List String → List String)
    (hc : cluster_configs repo = []) (ho : firewall_objects repo = []) :
    main' oracle (some cs) (some rs) repo setEnum = .nothingFound ∧
    (main' oracle (some cs) (some rs) repo setEnum).errors = [] ∧
    (main' oracle (some cs) (some rs) repo setEnum).exitCode = 0 ∧
    main' oracle (some cs) (some rs) repo setEnum =
      main' oracle (some cs) (some rs) repo setEnum' := by
  have h : ∀ se : List String → List String,
      main' oracle (some cs) (some rs) repo se = .nothingFound := by
    intro se
    rw [main'_some, hc, ho]
    rfl
  exact ⟨h setEnum, by rw [h setEnum]; rfl, by rw [h setEnum]; rfl, by rw [h setEnum, h setEnum']⟩

/-- Closed instance of C5: a repository with an empty `clusters/` listing
discovers nothing and exits 0 with no errors. -/
theorem C5_empty_discovery_witness :
    main' oracleOk (some .null) (some .null) (Repo.mk []) enumId = .nothingFound ∧
    (main' oracleOk (some .null) (some .null) (Repo.mk []) enumId).errors = [] ∧
    (main' oracleOk (some .null) (some .null) (Repo.mk []) enumId).exitCode = 0 ∧
    main' oracleOk (some .null) (some .null) (Repo.mk []) enumId =
      main' oracleOk (some .null) (some .null) (Repo.mk []) enumRev :=
  C5_empty_discovery oracleOk .null .null (Repo.mk []) enumId enumRev rfl rfl

/-- C2 (failing input): the reference check derives the owner of a
discovered object file with `endswith("objects.yaml")`, so a file named
exactly `objects.yaml` nested inside the `objects/` sub-folder is attributed
to its parent `clusters/east/objects` instead of the grandparent cluster
directory `clusters/east` that the specification requires; on the otherwise
conventional repository `repoEastNested` the run then reports a spurious
MissingObjects error for `clusters/east` and a spurious OrphanedObjects
error for `clusters/east/objects`, and exits 1. -/
theorem C2_owner_not_grandparent_for_nested_objects_yaml :
    firewall_objects repoEastNested = ["clusters/east/objects/objects.yaml"] ∧
    objectOwnerDir "clusters/east/objects/objects.yaml" = "clusters/east/objects" ∧
    dirname (dirname "clusters/east/objects/objects.yaml") = "clusters/east" ∧
    "clusters/east/objects" ≠ "clusters/east" ∧
    main' oracleOk (some .null) (some .null) repoEastNested enumId =
      .report [.missingObjects "clusters/east", .orphanedObjects "clusters/east/objects"] ∧
    (main' oracleOk (some .null) (some .null) repoEastNested enumId).exitCode = 1 := by
  decide

/-- C1 (failing input): the directory `clusters/zeta` owns an object source
(the `objects/` folder whose single file is named `objects.yaml`, whose
grandparent is `clusters/zeta`) and has no cluster-definition file, so the
claim requires exactly one OrphanedObjects error naming `clusters/zeta`; the
run instead produces zero errors naming `clusters/zeta` — its only error
names `clusters/zeta/objects`, the parent mis-derived by the
`endswith("objects.yaml")` test. -/
theorem C1_orphaned_error_names_wrong_directory :
    cluster_configs repoZeta = [] ∧
    firewall_objects repoZeta = ["clusters/zeta/objects/objects.yaml"] ∧
    dirname (dirname "clusters/zeta/objects/objects.yaml") = "clusters/zeta" ∧
    (main' oracleOk (some .null) (some .null) repoZeta enumId).errors.count
      (.orphanedObjects "clusters/zeta") = 0 ∧
    (main' oracleOk (some .null) (some .null) repoZeta enumId).errors =
      [.orphanedObjects "clusters/zeta/objects"] ∧
    (main' oracleOk (some .null) (some .null) repoZeta enumId).exitCode = 1 := by
  decide

theorem ref_no_syntax {configs objects : List String} {setEnum : List String → List String}
    {p m : String} :
    VError.syntaxError p m ∉ validate_cluster_references configs objects setEnum := by
  intro h
  unfold validate_cluster_references at h
  rw [List.mem_append] at h
  rcases h with h | h <;> rw [List.mem_map] at h <;> obtain ⟨d, -, hd⟩ := h <;>
    exact VError.noConfusion hd

theorem ref_no_schema {configs objects : List String} {setEnum : List String → List String}
    {p m : String} :
    VError.schemaError p m ∉ validate_cluster_references configs objects setEnum := by
  intro h
  unfold validate_cluster_references at h
  rw [List.mem_append] at h
  rcases h with h | h <;> rw [List.mem_map] at h <;> obtain ⟨d, -, hd⟩ := h <;>
    exact VError.noConfusion hd

theorem count_syntax_validateOneFile (oracle : Oracle) (schema : YamlValue) (q p m : String)
    (hp : oracle.parse p = .err m) :
    (validateOneFile oracle schema q).count (.syntaxError p m) = if q = p then 1 else 0 := by
  by_cases hq : q = p
  · subst hq
    rw [if_pos rfl]
    simp [validateOneFile, hp]
  · rw [if_neg hq]
    cases hpr : oracle.parse q with
    | err mm =>
      have hqp : ¬(p = q ∧ m = mm) := fun hc => hq hc.1.symm
      simp [validateOneFile, hpr, List.count_cons, VError.syntaxError.injEq, hqp]
    | ok v =>
      cases hsv : oracle.schemaValidate v schema with
      | none => simp [validateOneFile, hpr, hsv]
      | some mm => simp [validateOneFile, hpr, hsv, List.count_cons]

theorem count_syntax_flatMap (oracle : Oracle) (schema : YamlValue) (l : List String)
    (p m : String) (hp : oracle.parse p = .err m) :
    (l.flatMap (validateOneFile oracle schema)).count (.syntaxError p m) = l.count p := by
  induction l with
  | nil => rfl
  | cons q l ih =>
    rw [List.flatMap_cons, List.count_append, ih,
      count_syntax_validateOneFile oracle schema q p m hp, List.count_cons]
    by_cases hq : q = p
    · subst hq
      simp
      omega
    · have hq' : ¬((q == p) = true) := by simpa using hq
      simp [hq, hq']

theorem no_schema_error_of_parse_err {oracle : Oracle} {schema : YamlValue} {l : List String}
    {p m m' : String} (hp : oracle.parse p = .err m) :
    VError.schemaError p m' ∉ l.flatMap (validateOneFile oracle schema) := by
  intro h
  rw [List.mem_flatMap] at h
  obtain ⟨q, -, hm⟩ := h
  cases hpr : oracle.parse q with
  | err mm =>
    simp only [validateOneFile, hpr, List.mem_singleton] at hm
    exact VError.noConfusion hm
  | ok v =>
    cases hsv : oracle.schemaValidate v schema with
    | none => simp [validateOneFile, hpr, hsv] at hm
    | some mm =>
      simp only [validateOneFile, hpr, hsv, List.mem_singleton] at hm
      injection hm with h1 h2
      rw [← h1] at hpr
      rw [hp] at hpr
      exact ParseResult.noConfusion hpr

/-- C4: for a discovered file whose content fails to parse, exactly one
syntax error carrying the parser's message and that file's path is recorded;
no schema error for that file is recorded (the file is not schema-checked);
and every error of every other discovered file's validation is still
collected into the run's error list. -/
theorem C4_syntax_error_isolated (oracle : Oracle) (cs rs : YamlValue) (repo : Repo)
    (setEnum : List String → List String) (hwf : RepoWf repo) (p m : String)
    (hdisc : p ∈ cluster_configs repo ++ firewall_objects repo)
    (hp : oracle.parse p = .err m) :
    ((main' oracle (some cs) (some rs) repo setEnum).errors).count (.syntaxError p m) = 1 ∧
    (∀ m', VError.schemaError p m' ∉ (main' oracle (some cs) (some rs) repo setEnum).errors) ∧
    (∀ q ∈ cluster_configs repo, ∀ er ∈ validateOneFile oracle cs q,
      er ∈ (main' oracle (some cs) (some rs) repo setEnum).errors) ∧
    (∀ q ∈ firewall_objects repo, ∀ er ∈ validateOneFile oracle rs q,
      er ∈ (main' oracle (some cs) (some rs) repo setEnum).errors) := by
  have hcond : ((cluster_configs repo).isEmpty && (firewall_objects repo).isEmpty) ≠ true := by
    intro hc
    rw [Bool.and_eq_true] at hc
    rcases List.mem_append.1 hdisc with h | h
    · rw [List.isEmpty_iff.mp hc.1] at h
      exact List.not_mem_nil p h
    · rw [List.isEmpty_iff.mp hc.2] at h
      exact List.not_mem_nil p h
  have hmain : main' oracle (some cs) (some rs) repo setEnum =
      .report (((cluster_configs repo).flatMap (validateOneFile oracle cs)) ++
        (((firewall_objects repo).flatMap (validateOneFile oracle rs)) ++
        validate_cluster_references (cluster_configs repo) (firewall_objects repo) setEnum)) := by
    rw [main'_some, if_neg hcond]
    rw [List.append_assoc]
  rw [hmain]
  refine ⟨?_, ?_, ?_, ?_⟩
  · simp only [RunResult.errors]
    rw [List.count_append, List.count_append,
      count_syntax_flatMap oracle cs _ p m hp, count_syntax_flatMap oracle rs _ p m hp,
      List.count_eq_zero.mpr ref_no_syntax]
    have hone := List.count_eq_one_of_mem (discovered_nodup hwf) hdisc
    rw [List.count_append] at hone
    omega
  · intro m' hmem
    rw [RunResult.errors] at hmem
    rcases List.mem_append.1 hmem with h | h
    · exact no_schema_error_of_parse_err hp h
    · rcases List.mem_append.1 h with h' | h'
      · exact no_schema_error_of_parse_err hp h'
      · exact ref_no_schema h'
  · intro q hq er her
    rw [RunResult.errors]
    exact List.mem_append.2 (Or.inl (List.mem_flatMap.2 ⟨q, hq, her⟩))
  · intro q hq er her
    rw [RunResult.errors]
    exact List.mem_append.2 (Or.inr (List.mem_append.2 (Or.inl (List.mem_flatMap.2 ⟨q, hq, her⟩))))

/-- Closed instance of C4: with `clusters/alpha/cluster.yaml` failing to
parse, the run records exactly one syntax error for it, no schema error for
it, and still collects every other file's errors. -/
theorem C4_syntax_error_isolated_witness :
    ((main' oracleBadAlpha (some .null) (some .null) repoAlphaBeta enumId).errors).count
      (.syntaxError "clusters/alpha/cluster.yaml" "mapping values are not allowed here") = 1 ∧
    (∀ m', VError.schemaError "clusters/alpha/cluster.yaml" m' ∉
      (main' oracleBadAlpha (some .null) (some .null) repoAlphaBeta enumId).errors) ∧
    (∀ q ∈ cluster_configs repoAlphaBeta, ∀ er ∈ validateOneFile oracleBadAlpha .null q,
      er ∈ (main' oracleBadAlpha (some .null) (some .null) repoAlphaBeta enumId).errors) ∧
    (∀ q ∈ firewall_objects repoAlphaBeta, ∀ er ∈ validateOneFile oracleBadAlpha .null q,
      er ∈ (main' oracleBadAlpha (some .null) (some .null) repoAlphaBeta enumId).errors) :=
  C4_syntax_error_isolated oracleBadAlpha .null .null repoAlphaBeta enumId (by decide)
    "clusters/alpha/cluster.yaml" "mapping values are not allowed here" (by decide) rfl

theorem no_syntax_error_of_parse_ok {oracle : Oracle} {schema : YamlValue} {l : List String}
    {p : String} {v : YamlValue} (hp : oracle.parse p = .ok v) (m : String) :
    VError.syntaxError p m ∉ l.flatMap (validateOneFile oracle schema) := by
  intro h
  rw [List.mem_flatMap] at h
  obtain ⟨q, -, hm⟩ := h
  cases hpr : oracle.parse q with
  | err mm =>
    simp only [validateOneFile, hpr, List.mem_singleton] at hm
    injection hm with h1 h2
    rw [← h1] at hpr
    rw [hp] at hpr
    exact ParseResult.noConfusion hpr
  | ok w =>
    cases hsv : oracle.schemaValidate w schema with
    | none => simp [validateOneFile, hpr, hsv] at hm
    | some mm =>
      simp only [validateOneFile, hpr, hsv, List.mem_singleton] at hm
      exact VError.noConfusion hm

/-- C10: a discovered file whose content parses to the YAML null value (as
an empty file does) is not a syntax error: the run records no syntax error
for it, the file's validation proceeds to the schema check with null as the
instance, and any error it contributes is a schema error. -/
theorem C10_null_parse_not_syntax_error (oracle : Oracle) (cs rs : YamlValue) (repo : Repo)
    (setEnum : List String → List String) (p : String)
    (hparse : oracle.parse p = .ok .null) :
    (∀ m, VError.syntaxError p m ∉ (main' oracle (some cs) (some rs) repo setEnum).errors) ∧
    validateOneFile oracle cs p = (match oracle.schemaValidate .null cs with
      | some msg => [.schemaError p msg]
      | none => []) ∧
    validateOneFile oracle rs p = (match oracle.schemaValidate .null rs with
      | some msg => [.schemaError p msg]
      | none => []) ∧
    (∀ m, p ∈ cluster_configs repo → oracle.schemaValidate .null cs = some m →
      VError.schemaError p m ∈ (main' oracle (some cs) (some rs) repo setEnum).errors) ∧
    (∀ m, p ∈ firewall_objects repo → oracle.schemaValidate .null rs = some m →
      VError.schemaError p m ∈ (main' oracle (some cs) (some rs) repo setEnum).errors) := by
  refine ⟨?_, by simp [validateOneFile, hparse], by simp [validateOneFile, hparse], ?_, ?_⟩
  · intro m hmem
    by_cases hcond : ((cluster_configs repo).isEmpty && (firewall_objects repo).isEmpty) = true
    · rw [main'_some, if_pos hcond] at hmem
      exact List.not_mem_nil _ hmem
    · rw [main'_some, if_neg hcond] at hmem
      simp only [RunResult.errors] at hmem
      rcases List.mem_append.1 hmem with h | h
      · rcases List.mem_append.1 h with h' | h'
        · exact no_syntax_error_of_parse_ok hparse m h'
        · exact no_syntax_error_of_parse_ok hparse m h'
      · exact ref_no_syntax h
  · intro m hmemc hsv
    have hcond : ((cluster_configs repo).isEmpty && (firewall_objects repo).isEmpty) ≠ true := by
      intro hc
      rw [Bool.and_eq_true] at hc
      rw [List.isEmpty_iff.mp hc.1] at hmemc
      exact List.not_mem_nil p hmemc
    rw [main'_some, if_neg hcond]
    simp only [RunResult.errors]
    have her : VError.schemaError p m ∈ validateOneFile oracle cs p := by
      simp [validateOneFile, hparse, hsv]
    exact List.mem_append.2 (Or.inl (List.mem_append.2 (Or.inl
      (List.mem_flatMap.2 ⟨p, hmemc, her⟩))))
  · intro m hmemo hsv
    have hcond : ((cluster_configs repo).isEmpty && (firewall_objects repo).isEmpty) ≠ true := by
      intro hc
      rw [Bool.and_eq_true] at hc
      rw [List.isEmpty_iff.mp hc.2] at hmemo
      exact List.not_mem_nil p hmemo
    rw [main'_some, if_neg hcond]
    simp only [RunResult.errors]
    have her : VError.schemaError p m ∈ validateOneFile oracle rs p := by
      simp [validateOneFile, hparse, hsv]
    exact List.mem_append.2 (Or.inl (List.mem_append.2 (Or.inr
      (List.mem_flatMap.2 ⟨p, hmemo, her⟩))))

/-- Closed instance of C10: with every file parsing to null and the schema
validator rejecting the null instance, the object file
`clusters/alpha/objects.yaml` yields a schema error, never a syntax error. -/
theorem C10_null_parse_not_syntax_error_witness :
    (∀ m, VError.syntaxError "clusters/alpha/objects.yaml" m ∉
      (main' oracleNullRejected (some .null) (some .null) repoAlphaBeta enumId).errors) ∧
    validateOneFile oracleNullRejected .null "clusters/alpha/objects.yaml" =
      (match oracleNullRejected.schemaValidate .null .null with
        | some msg => [.schemaError "clusters/alpha/objects.yaml" msg]
        | none => []) ∧
    validateOneFile oracleNullRejected .null "clusters/alpha/objects.yaml" =
      (match oracleNullRejected.schemaValidate .null .null with
        | some msg => [.schemaError "clusters/alpha/objects.yaml" msg]
        | none => []) ∧
    (∀ m, "clusters/alpha/objects.yaml" ∈ cluster_configs repoAlphaBeta →
      oracleNullRejected.schemaValidate .null .null = some m →
      VError.schemaError "clusters/alpha/objects.yaml" m ∈
        (main' oracleNullRejected (some .null) (some .null) repoAlphaBeta enumId).errors) ∧
    (∀ m, "clusters/alpha/objects.yaml" ∈ firewall_objects repoAlphaBeta →
      oracleNullRejected.schemaValidate .null .null = some m →
      VError.schemaError "clusters/alpha/objects.yaml" m ∈
        (main' oracleNullRejected (some .null) (some .null) repoAlphaBeta enumId).errors) :=
  C10_null_parse_not_syntax_error oracleNullRejected .null .null repoAlphaBeta enumId
    "clusters/alpha/objects.yaml" rfl

theorem validEnum_enumId : ValidEnum enumId :=
  fun l => List.Perm.refl l

theorem validEnum_enumRev : ValidEnum enumRev :=
  fun l => List.reverse_perm l

theorem report_exit_perm {l₁ l₂ : List VError} (h : l₁.Perm l₂) :
    (RunResult.report l₁).exitCode = (RunResult.report l₂).exitCode := by
  have hlen := h.length_eq
  cases l₁ <;> cases l₂ <;> simp_all [RunResult.exitCode]

/-- C6 (amended): the reference check consumes only the discovered paths, so
its error block is identical whatever the file contents are (it runs even
when files fail syntax or schema validation), and it is appended after all
per-file validation errors, with every MissingObjects error before every
OrphanedObjects error; within each block the order is the set iteration
order `setEnum`, which is not guaranteed to be discovery order. -/
theorem C6_reference_errors_appended (oracle oracle' : Oracle) (cs rs cs' rs' : YamlValue)
    (repo : Repo) (setEnum : List String → List String)
    (hne : cluster_configs repo ≠ [] ∨ firewall_objects repo ≠ []) :
    ∃ perFile perFile' : List VError,
      main' oracle (some cs) (some rs) repo setEnum = .report (perFile ++
        validate_cluster_references (cluster_configs repo) (firewall_objects repo) setEnum) ∧
      main' oracle' (some cs') (some rs') repo setEnum = .report (perFile' ++
        validate_cluster_references (cluster_configs repo) (firewall_objects repo) setEnum) ∧
      (∀ er ∈ perFile, (∃ q m, er = VError.syntaxError q m) ∨
        (∃ q m, er = VError.schemaError q m)) ∧
      (∀ er ∈ perFile', (∃ q m, er = VError.syntaxError q m) ∨
        (∃ q m, er = VError.schemaError q m)) ∧
      validate_cluster_references (cluster_configs repo) (firewall_objects repo) setEnum =
        (setEnum (missing_objects (cluster_configs repo) (firewall_objects repo))).map
          VError.missingObjects ++
        (setEnum (orphaned_objects (cluster_configs repo) (firewall_objects repo))).map
          VError.orphanedObjects := by
  have hcond : ((cluster_configs repo).isEmpty && (firewall_objects repo).isEmpty) ≠ true := by
    intro hc
    rw [Bool.and_eq_true] at hc
    rcases hne with h | h
    · exact h (List.isEmpty_iff.mp hc.1)
    · exact h (List.isEmpty_iff.mp hc.2)
  refine ⟨(cluster_configs repo).flatMap (validateOneFile oracle cs) ++
      (firewall_objects repo).flatMap (validateOneFile oracle rs),
    (cluster_configs repo).flatMap (validateOneFile oracle' cs') ++
      (firewall_objects repo).flatMap (validateOneFile oracle' rs'), ?_, ?_, ?_, ?_, rfl⟩
  · rw [main'_some, if_neg hcond, List.append_assoc]
  · rw [main'_some, if_neg hcond, List.append_assoc]
  · intro er her
    rcases List.mem_append.1 her with h | h <;>
    · rw [List.mem_flatMap] at h
      obtain ⟨q, -, hm⟩ := h
      rcases validateOneFile_kinds hm with ⟨m, rfl⟩ | ⟨m, rfl⟩
      · exact Or.inl ⟨q, m, rfl⟩
      · exact Or.inr ⟨q, m, rfl⟩
  · intro er her
    rcases List.mem_append.1 her with h | h <;>
    · rw [List.mem_flatMap] at h
      obtain ⟨q, -, hm⟩ := h
      rcases validateOneFile_kinds hm with ⟨m, rfl⟩ | ⟨m, rfl⟩
      · exact Or.inl ⟨q, m, rfl⟩
      · exact Or.inr ⟨q, m, rfl⟩

/-- C6 (counterexample to the discovery-order clause): on a repository whose
cluster directories `clusters/a`, `clusters/b` are discovered in that order
and both lack object sources, the reversed enumeration — which visits the
same two set elements exactly once, so it is an admissible CPython set
iteration order — yields the MissingObjects errors in the order b, a: not
discovery order. -/
theorem C6_reference_order_counterexample :
    cluster_configs repoAB = ["clusters/a/cluster.yaml", "clusters/b/cluster.yaml"] ∧
    missing_objects (cluster_configs repoAB) (firewall_objects repoAB) =
      ["clusters/a", "clusters/b"] ∧
    (enumRev ["clusters/a", "clusters/b"]).Perm ["clusters/a", "clusters/b"] ∧
    (main' oracleOk (some .null) (some .null) repoAB enumRev).errors =
      [.missingObjects "clusters/b", .missingObjects "clusters/a"] := by
  decide

/-- Closed instance of the amended C6 on a repository with a syntax-broken
file: the reference block is the same with broken or clean contents and sits
after the per-file errors. -/
theorem C6_reference_errors_appended_witness :
    ∃ perFile perFile' : List VError,
      main' oracleBadAlpha (some .null) (some .null) repoAlphaBeta enumId = .report (perFile ++
        validate_cluster_references (cluster_configs repoAlphaBeta)
          (firewall_objects repoAlphaBeta) enumId) ∧
      main' oracleOk (some .null) (some .null) repoAlphaBeta enumId = .report (perFile' ++
        validate_cluster_references (cluster_configs repoAlphaBeta)
          (firewall_objects repoAlphaBeta) enumId) ∧
      (∀ er ∈ perFile, (∃ q m, er = VError.syntaxError q m) ∨
        (∃ q m, er = VError.schemaError q m)) ∧
      (∀ er ∈ perFile', (∃ q m, er = VError.syntaxError q m) ∨
        (∃ q m, er = VError.schemaError q m)) ∧
      validate_cluster_references (cluster_configs repoAlphaBeta)
          (firewall_objects repoAlphaBeta) enumId =
        (enumId (missing_objects (cluster_configs repoAlphaBeta)
          (firewall_objects repoAlphaBeta))).map VError.missingObjects ++
        (enumId (orphaned_objects (cluster_configs repoAlphaBeta)
          (firewall_objects repoAlphaBeta))).map VError.orphanedObjects :=
  C6_reference_errors_appended oracleBadAlpha oracleOk .null .null .null .null repoAlphaBeta
    enumId (Or.inl (by decide))

/-- C8 (amended): two runs on the same repository state with the same file
contents collect permutation-equal error lists with the same exit code; the
per-file error prefix is identical, and only the reference-check suffixes
may differ, by a permutation determined by the two processes' set iteration
orders. -/
theorem C8_rerun_same_error_multiset (oracle : Oracle) (csd rsd : Option YamlValue)
    (repo : Repo) (e₁ e₂ : List String → List String)
    (h₁ : ValidEnum e₁) (h₂ : ValidEnum e₂) :
    ((main' oracle csd rsd repo e₁).errors).Perm ((main' oracle csd rsd repo e₂).errors) ∧
    (main' oracle csd rsd repo e₁).exitCode = (main' oracle csd rsd repo e₂).exitCode ∧
    ∃ perFile r₁ r₂ : List VError,
      (main' oracle csd rsd repo e₁).errors = perFile ++ r₁ ∧
      (main' oracle csd rsd repo e₂).errors = perFile ++ r₂ ∧ r₁.Perm r₂ := by
  cases csd with
  | none =>
    have g1 : main' oracle none rsd repo e₁ = .fatalSchemaLoad := by cases rsd <;> rfl
    have g2 : main' oracle none rsd repo e₂ = .fatalSchemaLoad := by cases rsd <;> rfl
    rw [g1, g2]
    exact ⟨List.Perm.refl _, rfl, [], [], [], rfl, rfl, List.Perm.refl _⟩
  | some cs =>
    cases rsd with
    | none =>
      exact ⟨List.Perm.refl _, rfl, [], [], [], rfl, rfl, List.Perm.refl _⟩
    | some rs =>
      by_cases hcond : ((cluster_configs repo).isEmpty && (firewall_objects repo).isEmpty) = true
      · rw [main'_some, main'_some, if_pos hcond, if_pos hcond]
        exact ⟨List.Perm.refl _, rfl, [], [], [], rfl, rfl, List.Perm.refl _⟩
      · rw [main'_some, main'_some, if_neg hcond, if_neg hcond]
        simp only [RunResult.errors]
        have hrperm : (validate_cluster_references (cluster_configs repo)
            (firewall_objects repo) e₁).Perm (validate_cluster_references
            (cluster_configs repo) (firewall_objects repo) e₂) := by
          unfold validate_cluster_references
          exact (((h₁ _).trans (h₂ _).symm).map VError.missingObjects).append
            (((h₁ _).trans (h₂ _).symm).map VError.orphanedObjects)
        have hperm : ((cluster_configs repo).flatMap (validateOneFile oracle cs) ++
            (firewall_objects repo).flatMap (validateOneFile oracle rs) ++
            validate_cluster_references (cluster_configs repo) (firewall_objects repo) e₁).Perm
            ((cluster_configs repo).flatMap (validateOneFile oracle cs) ++
            (firewall_objects repo).flatMap (validateOneFile oracle rs) ++
            validate_cluster_references (cluster_configs repo) (firewall_objects repo) e₂) :=
          List.Perm.append_left _ hrperm
        exact ⟨hperm, report_exit_perm hperm,
          (cluster_configs repo).flatMap (validateOneFile oracle cs) ++
            (firewall_objects repo).flatMap (validateOneFile oracle rs),
          validate_cluster_references (cluster_configs repo) (firewall_objects repo) e₁,
          validate_cluster_references (cluster_configs repo) (firewall_objects repo) e₂,
          rfl, rfl, hrperm⟩

/-- C8 (counterexample to byte-identical order): on the fixed repository
`repoAB` two admissible set iteration orders give the two MissingObjects
errors in opposite orders, so two runs of the validator need not produce the
error list in the same order (CPython string hashing is seed-randomized per
process). -/
theorem C8_rerun_order_counterexample :
    (enumId ["clusters/a", "clusters/b"]).Perm ["clusters/a", "clusters/b"] ∧
    (enumRev ["clusters/a", "clusters/b"]).Perm ["clusters/a", "clusters/b"] ∧
    (main' oracleOk (some .null) (some .null) repoAB enumId).errors =
      [.missingObjects "clusters/a", .missingObjects "clusters/b"] ∧
    (main' oracleOk (some .null) (some .null) repoAB enumRev).errors =
      [.missingObjects "clusters/b", .missingObjects "clusters/a"] ∧
    (main' oracleOk (some .null) (some .null) repoAB enumId).errors ≠
      (main' oracleOk (some .null) (some .null) repoAB enumRev).errors := by
  decide

/-- Closed instance of the amended C8 on `repoAB` with the two enumerations
of the counterexample. -/
theorem C8_rerun_same_error_multiset_witness :
    ((main' oracleOk (some .null) (some .null) repoAB enumId).errors).Perm
      ((main' oracleOk (some .null) (some .null) repoAB enumRev).errors) ∧
    (main' oracleOk (some .null) (some .null) repoAB enumId).exitCode =
      (main' oracleOk (some .null) (some .null) repoAB enumRev).exitCode ∧
    ∃ perFile r₁ r₂ : List VError,
      (main' oracleOk (some .null) (some .null) repoAB enumId).errors = perFile ++ r₁ ∧
      (main' oracleOk (some .null) (some .null) repoAB enumRev).errors = perFile ++ r₂ ∧
      r₁.Perm r₂ :=
  C8_rerun_same_error_multiset oracleOk (some .null) (some .null) repoAB enumId enumRev
    validEnum_enumId validEnum_enumRev

/-- C9: discovery enumerates exactly the conventional paths and no others —
`clusters/<name>/cluster.yaml` as cluster configs, and the union of
`clusters/<name>/objects.yaml` and `clusters/<name>/objects/<file>` (files
one level inside `objects/`, matched by the `*.yaml` glob) as object files;
both layouts coexisting for one cluster are both enumerated (no conflict
error exists in the model); and no path more than one level inside
`objects/` is ever discovered. -/
theorem C9_discovery_characterization (repo : Repo) (hwf : RepoWf repo) (p : String) :
    (p ∈ cluster_configs repo ↔ ∃ e ∈ repo.entries, visible e.name = true ∧
      e.hasClusterYaml = true ∧ p = "clusters/" ++ e.name ++ "/cluster.yaml") ∧
    (p ∈ firewall_objects repo ↔ ∃ e ∈ repo.entries, visible e.name = true ∧ e.isDir = true ∧
      ((e.hasObjectsYaml = true ∧ p = "clusters/" ++ e.name ++ "/objects.yaml") ∨
       (e.hasObjectsDir = true ∧ ∃ g ∈ e.objectsEntries, visible g.name = true ∧
         pyEndsWith g.name ".yaml" = true ∧
         p = "clusters/" ++ e.name ++ "/objects/" ++ g.name))) ∧
    (∀ e ∈ repo.entries, ∀ g ∈ e.objectsEntries, ∀ s : String,
      ("clusters/" ++ e.name ++ "/objects/" ++ g.name ++ "/" ++ s) ∉ cluster_configs repo ∧
      ("clusters/" ++ e.name ++ "/objects/" ++ g.name ++ "/" ++ s) ∉ firewall_objects repo) ∧
    (∀ e ∈ repo.entries, visible e.name = true → e.isDir = true → e.hasObjectsYaml = true →
      e.hasObjectsDir = true → ∀ g ∈ e.objectsEntries, visible g.name = true →
      pyEndsWith g.name ".yaml" = true →
      ("clusters/" ++ e.name ++ "/objects.yaml") ∈ firewall_objects repo ∧
      ("clusters/" ++ e.name ++ "/objects/" ++ g.name) ∈ firewall_objects repo) := by
  refine ⟨mem_cluster_configs, ?_, ?_, ?_⟩
  · constructor
    · intro h
      obtain ⟨e, he, hoe⟩ := mem_firewall_objects.1 h
      obtain ⟨hv, hd, hrest⟩ := mem_entryObjects.1 hoe
      exact ⟨e, he, hv, hd, hrest⟩
    · rintro ⟨e, he, hv, hd, hrest⟩
      exact mem_firewall_objects.2 ⟨e, he, mem_entryObjects.2 ⟨hv, hd, hrest⟩⟩
  · intro e he g hg s
    have h1 : NoSlash e.name := (hwf.2 e he).2.1
    have hassoc : "clusters/" ++ e.name ++ "/objects/" ++ g.name ++ "/" ++ s =
        "clusters/" ++ e.name ++ ("/objects/" ++ (g.name ++ "/" ++ s)) := by
      simp [String.append_assoc]
    rw [hassoc]
    constructor
    · intro hmem
      obtain ⟨e', he', -, -, hp⟩ := mem_cluster_configs.1 hmem
      have h2 : NoSlash e'.name := (hwf.2 e' he').2.1
      have := ((clusters_path_eq_iff h1 h2 (head_objTail _) head_configTail).1 hp).2
      exact tail_config_ne_objTail _ this.symm
    · intro hmem
      obtain ⟨e', he', hoe⟩ := mem_firewall_objects.1 hmem
      have h2 : NoSlash e'.name := (hwf.2 e' he').2.1
      rcases (mem_entryObjects.1 hoe).2.2 with ⟨-, hp⟩ | ⟨-, g', hg', -, -, hp⟩
      · have := ((clusters_path_eq_iff h1 h2 (head_objTail _) head_objectsYamlTail).1 hp).2
        exact tail_objectsYaml_ne_objTail _ this.symm
      · rw [nested_path_assoc] at hp
        have := ((clusters_path_eq_iff h1 h2 (head_objTail _) (head_objTail _)).1 hp).2
        have hf := objTail_inj this
        have hns : NoSlash g'.name := ((hwf.2 e' he').2.2.2.2 g' hg').2
        apply hns
        rw [← hf]
        rw [String.data_append, String.data_append]
        exact List.mem_append.2 (Or.inl (List.mem_append.2 (Or.inr (by decide))))
  · intro e he hv hd hy ho g hg hgv hge
    constructor
    · exact mem_firewall_objects.2 ⟨e, he, mem_entryObjects.2 ⟨hv, hd, Or.inl ⟨hy, rfl⟩⟩⟩
    · exact mem_firewall_objects.2 ⟨e, he,
        mem_entryObjects.2 ⟨hv, hd, Or.inr ⟨ho, g, hg, hgv, hge, rfl⟩⟩⟩

/-- Closed instance of C9 on `repoCoexist`, where both object layouts
coexist: the well-formedness hypothesis holds, discovery unions the two
layouts in discovery order, the run reports no error at all (exit 0 — in
particular no conflict error for the coexisting layouts), and the
characterization holds at the single-file object path. -/
theorem C9_discovery_characterization_witness :
    RepoWf repoCoexist ∧
    firewall_objects repoCoexist =
      ["clusters/east/objects.yaml", "clusters/east/objects/web.yaml"] ∧
    main' oracleOk (some .null) (some .null) repoCoexist enumId = .report [] ∧
    (main' oracleOk (some .null) (some .null) repoCoexist enumId).exitCode = 0 ∧
    (("clusters/east/objects.yaml" ∈ cluster_configs repoCoexist ↔
      ∃ e ∈ repoCoexist.entries, visible e.name = true ∧ e.hasClusterYaml = true ∧
        "clusters/east/objects.yaml" = "clusters/" ++ e.name ++ "/cluster.yaml") ∧
    ("clusters/east/objects.yaml" ∈ firewall_objects repoCoexist ↔
      ∃ e ∈ repoCoexist.entries, visible e.name = true ∧ e.isDir = true ∧
      ((e.hasObjectsYaml = true ∧
        "clusters/east/objects.yaml" = "clusters/" ++ e.name ++ "/objects.yaml") ∨
       (e.hasObjectsDir = true ∧ ∃ g ∈ e.objectsEntries, visible g.name = true ∧
         pyEndsWith g.name ".yaml" = true ∧
         "clusters/east/objects.yaml" = "clusters/" ++ e.name ++ "/objects/" ++ g.name))) ∧
    (∀ e ∈ repoCoexist.entries, ∀ g ∈ e.objectsEntries, ∀ s : String,
      ("clusters/" ++ e.name ++ "/objects/" ++ g.name ++ "/" ++ s) ∉
        cluster_configs repoCoexist ∧
      ("clusters/" ++ e.name ++ "/objects/" ++ g.name ++ "/" ++ s) ∉
        firewall_objects repoCoexist) ∧
    (∀ e ∈ repoCoexist.entries, visible e.name = true → e.isDir = true →
      e.hasObjectsYaml = true → e.hasObjectsDir = true → ∀ g ∈ e.objectsEntries,
      visible g.name = true → pyEndsWith g.name ".yaml" = true →
      ("clusters/" ++ e.name ++ "/objects.yaml") ∈ firewall_objects repoCoexist ∧
      ("clusters/" ++ e.name ++ "/objects/" ++ g.name) ∈ firewall_objects repoCoexist)) :=
  ⟨by decide, by decide, by decide, by decide,
    C9_discovery_characterization repoCoexist (by decide) "clusters/east/objects.yaml"⟩
